import Mathlib

/-!
Shallow embedding of the command-resolution core of `dockerw/dockerw.py`
(dockerw 1.3.0): volume-path rewriting, image-name parsing, the wrapper
argument actions, namespace rendering, the reserved-path guard, the
yes/no prompt, container reconciliation, the defaults-loading loop and
the defaults-file executor — together with theorems checking the
specification claims against this embedding.

Modelling conventions:
- Host-dependent startup values (the resolved host user name `DOCKERW_UNAME`,
  its home directory, and live-filesystem path resolution
  `pathlib.PosixPath(...).resolve()`) are threaded through as an explicit
  `HostEnv` value; `HostEnv.resolve` is an oracle for the filesystem.
- External effects (the docker container inventory, terminal size, the
  content sniffed from a running container, stdin lines) are parameters of
  the functions that consume them.
- Python strings are Lean `String`s; the handful of string primitives the
  source uses (`split` on a single character, `startswith`, `replace`,
  `lstrip`) are re-implemented on `String.data` so that they both evaluate
  on concrete inputs and admit proofs; each is documented with the Python
  construct it models.
-/

deriving instance DecidableEq for Except

/-- Host identity computed once at dockerw startup: `DOCKERW_UNAME`
(user name of the resolved uid), that user's home directory
(`pwd.getpwuid(DOCKERW_UID).pw_dir`), and an oracle for
`pathlib.PosixPath(p).resolve()`, which depends on the live filesystem
and current directory. -/
structure HostEnv where
  uname : String
  home : String
  resolve : String → String

/-- `DOCKERW_VENV_PATH = pathlib.PosixPath('/.dockerw')`. -/
def DOCKERW_VENV_PATH : String := "/.dockerw"

/-- `DOCKERW_VENV_HOME_PATH = DOCKERW_VENV_PATH / f'home/{DOCKERW_UNAME}'`. -/
def DOCKERW_VENV_HOME_PATH (host : HostEnv) : String :=
  DOCKERW_VENV_PATH ++ "/home/" ++ host.uname

/-- `DOCKERW_VENV_COPY_PATH = DOCKERW_VENV_PATH / 'copy'`. -/
def DOCKERW_VENV_COPY_PATH : String := DOCKERW_VENV_PATH ++ "/copy"

/-- `DOCKERW_VENV_RC_PATH = DOCKERW_VENV_PATH / 'rc.sh'`. -/
def DOCKERW_VENV_RC_PATH : String := DOCKERW_VENV_PATH ++ "/rc.sh"

/-- `DOCKERW_VENV_SHELLS = ('sh', 'bash', 'dash', 'ksh', 'ash')`. -/
def DOCKERW_VENV_SHELLS : List String := ["sh", "bash", "dash", "ksh", "ash"]

/-- Split a character list at every occurrence of `sep` (Python
`str.split(sep)` for a one-character separator, which is the only form the
source uses: `':'` and `','`). -/
def listSplit (sep : Char) : List Char → List (List Char)
  | [] => [[]]
  | c :: cs =>
    match listSplit sep cs with
    | r :: rs => if c = sep then [] :: r :: rs else (c :: r) :: rs
    | [] => [[]]

/-- Python `s.split(sep)` for a one-character `sep`. -/
def pySplit (s : String) (sep : Char) : List String :=
  (listSplit sep s.data).map (fun l => String.mk l)

/-- Python `s.startswith(p)`. -/
def pyStartswith (s p : String) : Bool := p.data.isPrefixOf s.data

/-- Replace the leftmost occurrence of `old` by `new` (helper for Python
`s.replace(old, new, 1)`). -/
def listReplaceFirst (old new : List Char) : List Char → List Char
  | [] => if old.isPrefixOf [] then new else []
  | c :: cs =>
    if old.isPrefixOf (c :: cs) then new ++ (c :: cs).drop old.length
    else c :: listReplaceFirst old new cs

/-- Python `s.replace(old, new, 1)`. -/
def pyReplaceFirst (s old new : String) : String :=
  String.mk (listReplaceFirst old.data new.data s.data)

/-- Python `arg_name.replace("_", "-")` (both arguments are single
characters, so this is a character map). -/
def dashify (s : String) : String :=
  String.mk (s.data.map (fun c => if c = '_' then '-' else c))

/-- Python `re.sub(r'^~', repl, s)`: replace a leading tilde character. -/
def expandTildeWith (repl : String) (s : String) : String :=
  match s.data with
  | '~' :: rest => repl ++ String.mk rest
  | _ => s

/-- Python `s.lstrip(os.sep)`: strip all leading slashes. -/
def lstripSep (s : String) : String :=
  String.mk (s.data.dropWhile (fun c => c = '/'))

/-- `str(pathlib.PosixPath(base) / sub)` for an absolute `base` and a
relative `sub` (dockerw only joins `DOCKERW_VENV_COPY_PATH` with an
lstripped destination; multi-slash or dot-segment normalisation inside
`sub`, which pathlib would perform, does not arise in the claims checked
here and is not modelled). -/
def joinPath (base sub : String) : String :=
  if sub = "" then base else base ++ "/" ++ sub

/-- `options.split(',') if options else []` (dockerw.py line 163). -/
def optsSplit (opts : String) : List String :=
  if opts = "" then [] else pySplit opts ','

/-- `(volumes[volume].split(':') + [''])[:3]` (dockerw.py line 158):
the first three colon-separated fields, padded with empty strings; any
further fields are dropped. -/
def splitVolume (vol : String) : String × String × String :=
  let parts := pySplit vol ':'
  (parts.getD 0 "", parts.getD 1 "", parts.getD 2 "")

/-- Lines 165-166 of `_update_volume_paths`: if `'ro'` is not among the
options, drop every `'rw'` and append `'ro'`; otherwise leave the options
unchanged. -/
def copyOptions (opts : List String) : List String :=
  if "ro" ∈ opts then opts else opts.filter (fun o => o ≠ "rw") ++ ["ro"]

/-- The per-volume body of `_update_volume_paths` (dockerw.py lines
158-169), acting on the three split fields and returning the updated
fields. -/
def updVolParts (host : HostEnv) (src dest opts : String) (is_copy : Bool) :
    String × String × String :=
  let src1 := host.resolve (expandTildeWith host.home src)
  let dest1 := expandTildeWith ("/home/" ++ host.uname) dest
  if is_copy = true ∧ pyStartswith dest1 DOCKERW_VENV_COPY_PATH = false then
    (src1, joinPath DOCKERW_VENV_COPY_PATH (lstripSep dest1),
     String.intercalate "," (copyOptions (optsSplit opts)))
  else if pyStartswith dest1 ("/home/" ++ host.uname) then
    (src1, pyReplaceFirst dest1 ("/home/" ++ host.uname) (DOCKERW_VENV_HOME_PATH host), opts)
  else
    (src1, dest1, opts)

/-- Line 170 of `_update_volume_paths`:
`f'{src_path}:{dest_path}{":" + options if options else ""}'`. -/
def renderVolume (t : String × String × String) : String :=
  t.1 ++ ":" ++ t.2.1 ++ (if t.2.2 = "" then "" else ":" ++ t.2.2)

/-- One volume string through `_update_volume_paths`. -/
def updateVolumePath (host : HostEnv) (vol : String) (is_copy : Bool) : String :=
  let p := splitVolume vol
  renderVolume (updVolParts host p.1 p.2.1 p.2.2 is_copy)

/-- `_update_volume_paths(volumes, is_copy)` (dockerw.py lines 156-171). -/
def _update_volume_paths (host : HostEnv) (volumes : List String) (is_copy : Bool) :
    List String :=
  volumes.map (fun v => updateVolumePath host v is_copy)

/-- The characters accepted by the `[a-z0-9]` class that must open the
`name` group of the image-reference pattern. -/
def imageNameStartChars : List Char := "abcdefghijklmnopqrstuvwxyz0123456789".data

/-- Split a character list at the first occurrence of `c`: `none` when `c`
does not occur. -/
def breakOnChar (c : Char) : List Char → Option (List Char × List Char)
  | [] => none
  | x :: xs =>
    if x = c then some ([], xs)
    else (breakOnChar c xs).map (fun p => (x :: p.1, p.2))

/-- Whether a slash-free segment can be consumed by the registry group
`([^/]*[\.:]|localhost)[^/]*` of the image-reference pattern: it contains
a dot or colon, or starts with `localhost`. -/
def segOk (seg : List Char) : Bool :=
  seg.any (fun c => c = '.' || c = ':') || "localhost".data.isPrefixOf seg

/-- The tail `/?(?P<name>[a-z0-9][^:]*):?(?P<tag>.*)` of the
image-reference pattern: optionally eat one slash, require a `[a-z0-9]`
opener, take the name greedily up to the first colon, then the tag is the
rest (after the optional colon). Returns `(name, tag)`. -/
def nameCont (t : List Char) : Option (List Char × List Char) :=
  let t1 := match t with
    | '/' :: r => r
    | _ => t
  match t1 with
  | [] => none
  | c :: _ =>
    if imageNameStartChars.contains c then
      let nm := t1.takeWhile (fun x => x ≠ ':')
      let rest := t1.dropWhile (fun x => x ≠ ':')
      some (nm, match rest with
        | ':' :: r => r
        | _ => rest)
    else none

/-- The full match of
`^((?P<registry>([^/]*[\.:]|localhost)[^/]*)/)?/?(?P<name>[a-z0-9][^:]*):?(?P<tag>.*)`
(dockerw.py line 176) with Python's greedy-backtracking semantics: the
registry group, when present, consumes exactly the text before the first
slash (its atoms cannot cross a slash and the group requires a slash right
after), so it is viable iff the first segment satisfies `segOk`; if the
registry branch or its continuation fails, backtracking retries with the
optional group skipped on the whole input. Returns
`(registry?, name, tag)`. -/
def matchImage (s : List Char) : Option (Option (List Char) × List Char × List Char) :=
  match breakOnChar '/' s with
  | some (seg, rest) =>
    if segOk seg then
      match nameCont rest with
      | some p => some (some seg, p.1, p.2)
      | none => (nameCont s).map (fun p => (none, p.1, p.2))
    else (nameCont s).map (fun p => (none, p.1, p.2))
  | none => (nameCont s).map (fun p => (none, p.1, p.2))

/-- `_parse_image_name` (dockerw.py lines 173-181): on a failed match the
`except` branch exits fatally with the offending value (modelled as
`Except.error` carrying the exact message); otherwise a missing registry
defaults to `docker.io` and a missing tag to `latest` (Python truthiness:
an absent or empty group is falsy). -/
def _parse_image_name (image_name : String) : Except String (String × String × String) :=
  match matchImage image_name.data with
  | none => .error ("Error: Invalid image name provided: \"" ++ image_name ++ "\"")
  | some (reg, nm, tag) =>
    let reg1 := match reg with
      | some r => String.mk r
      | none => ""
    .ok ((if reg1 = "" then "docker.io" else reg1), String.mk nm,
         (if tag = [] then "latest" else String.mk tag))

/-- `'{}/{}:{}'.format(*_parse_image_name(x))` (dockerw.py lines 572 and
594). -/
def formatImageName (raw : String) : Except String String :=
  match _parse_image_name raw with
  | .error e => .error e
  | .ok (r, n, t) => .ok (r ++ "/" ++ n ++ ":" ++ t)

/-- The slice of the argparse namespace the wrapper actions read and
write. argparse initialises `venv` to `None` (falsy, modelled `false`),
`user` to `None` and the list-valued `env`/`volume` to `[]`. -/
structure RunNs where
  venv : Bool := false
  user : Option String := none
  env : List String := []
  volume : List String := []
deriving DecidableEq

/-- `_UserAction.__call__` (dockerw.py lines 119-122): `--user VALUE`
stores the value only when `venv` is not already set. -/
def _UserAction (value : String) (ns : RunNs) : RunNs :=
  if ns.venv = false then { ns with user := some value } else ns

/-- `_VenvAction.__call__` (dockerw.py lines 124-129): `--venv` sets
`venv`, unconditionally sets `user` to `'root'`, and appends the two
sandbox environment variables. -/
def _VenvAction (ns : RunNs) : RunNs :=
  { ns with
    venv := true
    user := some "root"
    env := ns.env ++ ["DOCKERW_VENV=1", "ENV=" ++ DOCKERW_VENV_RC_PATH] }

/-- `_CopyAction.__call__` (dockerw.py lines 148-151): `--copy LIST` sends
the values through `_update_volume_paths(values, True)` and appends them to
`volume`. -/
def _CopyAction (host : HostEnv) (values : List String) (ns : RunNs) : RunNs :=
  { ns with volume := ns.volume ++ _update_volume_paths host values true }

/-- The possible values in the parsed-argument namespace, as
`_parsed_args_to_list` discriminates them: `None`, a bool, a string, or a
list of strings. -/
inductive ArgValue where
  | null
  | bool (b : Bool)
  | str (s : String)
  | strs (l : List String)
deriving DecidableEq

/-- `f'--{arg_name.replace("_","-")}={val}'`. -/
def fmtFlag (name value : String) : String := "--" ++ dashify name ++ "=" ++ value

/-- Rendering of one namespace entry by `_parsed_args_to_list`
(dockerw.py lines 189-198): falsy values (`None`, `False`, `[]`) render
nothing; a string renders one `--name=value` token; a list first sends
`volume` values through `_update_volume_paths` and then renders
`list(set(...))` of the formatted tokens — Python's set iteration order is
unspecified, so it is modelled as an order-fixing `dedup` (keeping the
last occurrence) and only multiset facts are claimed about it; any other
truthy value renders a bare `--name` token. -/
def renderArg (host : HostEnv) (name : String) : ArgValue → List String
  | .null => []
  | .bool b => if b then ["--" ++ dashify name] else []
  | .str s => [fmtFlag name s]
  | .strs l =>
    if l = [] then []
    else
      let l1 := if name = "volume" then _update_volume_paths host l false else l
      (l1.map (fun v => fmtFlag name v)).dedup

/-- The `dest` names registered through `_DockerwParser.add_argument` with
`is_dockerw_arg=True` (the wrapper-specific flags of `dockerw_run`, lines
529-564); `_parsed_args_to_list` skips these. -/
def dockerwArgNames : List String :=
  ["image", "_dockerw_parse_cwd_", "load", "disable_auto_load", "vscode",
   "default_image", "default_shell", "defaults", "x11", "venv", "login_shell",
   "dood", "args_only", "cache_cmd", "print_cmd", "print_defaults", "copy",
   "prompt_banner", "auto_attach", "auto_replace", "user_lock"]

/-- `_parsed_args_to_list` (dockerw.py lines 183-201): render every
non-dockerw namespace entry in insertion order, then append the positional
`image` list when it is present and not `['']`. -/
def _parsed_args_to_list (host : HostEnv) (ns : List (String × ArgValue))
    (image : Option (List String)) : List String :=
  (ns.filter (fun e => !(dockerwArgNames.contains e.1))).flatMap
      (fun e => renderArg host e.1 e.2)
    ++ (match image with
        | some img => if img = [""] then [] else img
        | none => [])

/-- The reserved-path guard (dockerw.py lines 628-630):
`[vol for vol in args.volume if re.match(r'/tmp/dockerw[/:]', vol)]` and a
fatal error naming the first hit. `re.match` anchors at the start of the
volume string, so a volume is caught exactly when the string itself begins
with `/tmp/dockerw` followed by a slash or colon. -/
def reservedVolumeError (volumes : List String) : Option String :=
  match volumes.filter
      (fun v => pyStartswith v "/tmp/dockerw/" || pyStartswith v "/tmp/dockerw:") with
  | [] => none
  | v :: _ =>
    some ("Error: Volume '" ++ v
      ++ "' uses '/tmp/dockerw' which is reserved for dockerw internal usage. Please use different directory.")

/-- Output channels of the process (`print` writes to stdout,
`print(..., file=sys.stderr)` to stderr). -/
inductive Chan where
  | stdout
  | stderr
deriving DecidableEq

/-- Python `s.lower()` (ASCII suffices for the prompt answers). -/
def pyLower (s : String) : String := String.mk (s.data.map Char.toLower)

/-- `answer[:1]` classified against `['y', 'n']`: `some true` for a `y`
opener, `some false` for `n`, `none` otherwise (continue prompting). -/
def validAnswer (a : String) : Option Bool :=
  match a.data with
  | 'y' :: _ => some true
  | 'n' :: _ => some false
  | _ => none

/-- `f'{prompt_msg} [{prompt_default}]: '` with
`prompt_default = 'Y/n' if answer_default else 'N/y'`. -/
def promptStr (msg : String) (ansDefault : Bool) : String :=
  msg ++ " [" ++ (if ansDefault then "Y/n" else "N/y") ++ "]: "

/-- `answer_default = 'yes' if answer_default else 'no'`. -/
def defaultAnswer (ansDefault : Bool) : String := if ansDefault then "yes" else "no"

/-- One `input().lower() or answer_default` read. stdin is modelled as a
list of lines; an exhausted stdin reads as a blank line, which falls back
to the default answer. -/
def readAnswer (dflt : String) : List String → String × List String
  | [] => (dflt, [])
  | a :: rest => ((if pyLower a = "" then dflt else pyLower a), rest)

/-- The `while answer[:1] not in ['y', 'n']` retry loop of
`_yes_no_prompt` (dockerw.py lines 237-239): nag on stdout, re-prompt and
re-read until a `y`/`n` answer arrives. Returns the boolean answer, the
emitted output and the unconsumed stdin lines. -/
def promptLoop (pstr dflt : String) (a : String) :
    List String → List (Chan × String) → Bool × List (Chan × String) × List String
  | answers, out =>
    match validAnswer a with
    | some b => (b, out, answers)
    | none =>
      let out1 := out ++ [(Chan.stdout, "Please answer yes or no..."), (Chan.stdout, pstr)]
      match answers with
      | [] => ((validAnswer dflt).getD false, out1, [])
      | a2 :: r2 => promptLoop pstr dflt (if pyLower a2 = "" then dflt else pyLower a2) r2 out1

/-- `_yes_no_prompt` (dockerw.py lines 228-240). In the interactive case
the first answer is read from stdin (the `input` call echoes the prompt to
stdout); in the non-interactive case the default answer is taken and
`print(f'{prompt_str}{answer}')` echoes prompt and answer to STDOUT. -/
def _yes_no_prompt (msg : String) (ansDefault : Bool) (isInteractive : Bool)
    (answers : List String) : Bool × List (Chan × String) × List String :=
  let pstr := promptStr msg ansDefault
  let dflt := defaultAnswer ansDefault
  if isInteractive then
    let r := readAnswer dflt answers
    promptLoop pstr dflt r.1 r.2 [(Chan.stdout, pstr)]
  else
    promptLoop pstr dflt dflt answers [(Chan.stdout, pstr ++ dflt)]

/-- Python truthiness of an argparse `store_true`-with-`default=None`
value: truthy exactly when it is `True`. -/
def truthy : Option Bool → Bool
  | some true => true
  | _ => false

/-- `pathlib.PurePath(p).name`: the last nonempty slash-separated
component (empty for an empty or all-slash path). -/
def basename (p : String) : String :=
  ((pySplit p '/').filter (fun s => s ≠ "")).getLastD ""

/-- The inputs of the reconciliation fragment of `dockerw_run`
(dockerw.py lines 577-626). `matched` abstracts the two status-filtered
`docker ps` queries of lines 581-589: `some (image, isRunning)` is the
first matching container record (`isRunning` records whether it came from
the active-like query), `none` means no container with the target name
exists. `sttyRows`/`sttyCols` abstract `stty size`, and `sniffUser` the
`HOME=/home/(\w+)` group extracted from the bootstrap artifact of the
running container (line 620). `answers` are the stdin lines available to
prompts. -/
structure ReconcileIn where
  containerName : String
  matched : Option (String × Bool)
  image : List String
  user : Option String
  autoAttach : Option Bool
  autoReplace : Option Bool
  interactive : Bool
  venv : Bool
  defaultShell : Option String
  detach : Bool
  sttyRows : String
  sttyCols : String
  sniffUser : Option String
  answers : List String
deriving DecidableEq

/-- The outcome of the reconciliation fragment: the chosen subcommand
(`run` or `exec`), the resolved attach/replace booleans, the mutated
`image`/`user`/`detach` fields, the environment entries appended in the
attach branch, and everything printed (with its channel, in order). -/
structure ReconcileOut where
  cmd : String
  attach : Bool
  replace : Bool
  image : List String
  user : Option String
  detach : Bool
  envAdd : List String
  output : List (Chan × String)
deriving DecidableEq

/-- The warning block of dockerw.py lines 597-603, emitted on stderr. -/
def attachWarnings (name curImg reqImg : String) (running : Bool) :
    List (Chan × String) :=
  (if running = false then
    [(Chan.stderr, "Warning: Cannot auto-attach to container name \"" ++ name
        ++ "\" when in non-running state")]
  else
    [(Chan.stderr, "Warning: Cannot auto-attach to container name \"" ++ name
        ++ "\" using a different image"),
     (Chan.stderr, "         running image:   " ++ curImg),
     (Chan.stderr, "         requested image: " ++ reqImg)])
  ++ [(Chan.stderr, "Warning: Disabled auto-attach")]

/-- The attach branch of lines 607-623: retarget the positional list at
the container name, default the in-container command to the configured
shell, forward the terminal size (or re-confirm detach) and, under venv,
adopt the sniffed container user when it matches the host user. -/
def attachBranch (host : HostEnv) (i : ReconcileIn) (ans : List String)
    (pre : List (Chan × String)) : ReconcileOut :=
  let img1 := i.containerName :: i.image.drop 1
  let img2 := if img1.length = 1 then img1 ++ [(i.defaultShell.getD "sh")] else img1
  let step :=
    if img2.length = 2 && DOCKERW_VENV_SHELLS.contains (basename (img2.getD 1 "")) then
      (false, ["DOCKERW_STTY_INIT=rows " ++ i.sttyRows ++ " cols " ++ i.sttyCols],
       ([] : List (Chan × String)))
    else if i.detach then
      let r := _yes_no_prompt "Still run command in background?" true i.interactive ans
      (r.1, [], r.2.1)
    else
      (i.detach, [], [])
  let user1 := if i.venv && (i.sniffUser == some host.uname) then some host.uname else i.user
  { cmd := "exec"
    attach := true
    replace := false
    image := img2
    user := user1
    detach := step.1
    envAdd := step.2.1
    output := pre ++ step.2.2 }

/-- The container-reconciliation fragment of `dockerw_run` (dockerw.py
lines 577-626) as a pure decision function. A fatal exit inside
`_parse_image_name` (line 594, unparsable container image) surfaces as
`Except.error`. -/
def reconcile (host : HostEnv) (i : ReconcileIn) : Except String ReconcileOut :=
  match i.matched with
  | none =>
    .ok { cmd := "run", attach := false, replace := false, image := i.image,
          user := i.user, detach := i.detach, envAdd := [], output := [] }
  | some (rawImg, running) =>
    match formatImageName rawImg with
    | .error e => .error e
    | .ok curImg =>
      let req := i.image.headD ""
      let mismatch : Bool := (curImg != req) || !running
      let warn :=
        if mismatch && truthy i.autoAttach && !(truthy i.autoReplace) then
          attachWarnings i.containerName curImg req running
        else []
      let attach1 : Option Bool := if mismatch then some false else i.autoAttach
      if attach1 = none ∧ i.autoReplace = none then
        let r := _yes_no_prompt "Attach to already running instance?" i.interactive
                   i.interactive i.answers
        if r.1 then
          .ok (attachBranch host i r.2.2 (warn ++ r.2.1))
        else
          let state := if running then "already running" else "existing"
          let r2 := _yes_no_prompt ("Replace " ++ state ++ " instance?") false
                      i.interactive r.2.2
          .ok { cmd := "run", attach := false, replace := r2.1, image := i.image,
                user := i.user, detach := i.detach, envAdd := [],
                output := warn ++ r.2.1 ++ r2.2.1 }
      else if truthy attach1 then
        .ok (attachBranch host i i.answers warn)
      else if i.autoReplace = none then
        let state := if running then "already running" else "existing"
        let r2 := _yes_no_prompt ("Replace " ++ state ++ " instance?") false
                    i.interactive i.answers
        .ok { cmd := "run", attach := false, replace := r2.1, image := i.image,
              user := i.user, detach := i.detach, envAdd := [],
              output := warn ++ r2.2.1 }
      else
        .ok { cmd := "run", attach := false, replace := truthy i.autoReplace,
              image := i.image, user := i.user, detach := i.detach, envAdd := [],
              output := warn }

/-- The defaults environment: for each project root path, the token list
that `shlex.split(' '.join(...))` produces from the `dockerw_defaults`
setting of `<root>/.dockerw/defaults.py` (empty for roots with no
defaults file, matching `parse_defaults_file` returning `{}`). -/
abbrev LoadEnv := List (String × List String)

/-- Look up a project root in the defaults environment. -/
def lookupLoadEnv (env : LoadEnv) (p : String) : List String :=
  match env.find? (fun e => e.1 == p) with
  | some e => e.2
  | none => []

/-- `_dockerw_load` (dockerw.py lines 221-226): the defaults tokens of
the loaded root, bracketed by the two `--_dockerw_parse_cwd_` markers
(the loaded root in front, the invoking directory behind). -/
def _dockerw_load (env : LoadEnv) (loadPath cwd : String) : List String :=
  ("--_dockerw_parse_cwd_=" ++ loadPath)
    :: (lookupLoadEnv env loadPath ++ ["--_dockerw_parse_cwd_=" ++ cwd])

/-- `load_parser.parse_known_args` restricted to the two declared flags
(dockerw.py lines 510-512): scan the tokens, `--load VALUE` and
`--load=VALUE` assign the scalar (last occurrence wins, initial value
`''`), `--disable-auto-load` sets the flag, everything else is ignored.
argparse rejects an option-like token (starting with `-`, other than a
lone `-`) in value position, and a trailing `--load` with no value, with
a parse error (`SystemExit`), modelled as `Except.error`. -/
def parseLoadArgs : List String → String → Bool → Except Unit (String × Bool)
  | [], load, dis => .ok (load, dis)
  | t :: rest, load, dis =>
    if t = "--load" then
      match rest with
      | v :: r =>
        if pyStartswith v "-" && v != "-" then .error () else parseLoadArgs r v dis
      | [] => .error ()
    else if pyStartswith t "--load=" then parseLoadArgs rest (t.drop 7) dis
    else if t = "--disable-auto-load" then parseLoadArgs rest load true
    else parseLoadArgs rest load dis

/-- Lines 515-518: when no `--load` was parsed and auto-load is not
disabled, fall back to the auto-discovered project root (`autoPath` is
`str(find_nearest_defaults_file_path().parent.parent)`, or `''` when no
defaults file is found, leaving the load target empty). -/
def effectiveLoad (autoPath : String) (parsed : String × Bool) : String :=
  if parsed.1 = "" && !parsed.2 then autoPath else parsed.1

/-- The `while True` defaults-loading loop of `dockerw_run` (dockerw.py
lines 507-524), with explicit fuel: parse the current load target from
the accumulated defaults tokens followed by the command-line tokens; if
it was already loaded, stop and return the accumulated tokens
(`new_load_args`); otherwise append its `_dockerw_load` expansion and its
path to `loaded_paths` and iterate. `none` means the fuel ran out before
the loop stopped; `some (.error ())` models an argparse parse error
exit. The initial call uses `acc = []` and `loaded = ['']`. -/
def loadLoop (env : LoadEnv) (autoPath : String) (cliArgs : List String) (cwd : String) :
    Nat → List String → List String → Option (Except Unit (List String))
  | 0, _, _ => none
  | fuel + 1, acc, loaded =>
    match parseLoadArgs (acc ++ cliArgs) "" false with
    | .error e => some (.error e)
    | .ok parsed =>
      let load := effectiveLoad autoPath parsed
      if load ∈ loaded then some (.ok acc)
      else loadLoop env autoPath cliArgs cwd fuel
             (acc ++ _dockerw_load env load cwd) (loaded ++ [load])

/-- A defaults file on disk: the project directory `os.chdir` targets
(line 693) and the outcome of `exec`-ing the script (line 694), which
either produces the `dockerw_defaults` token list or raises. -/
structure DefaultsFile where
  projectDir : String
  run : Except String (List String)

/-- `parse_defaults_file` (dockerw.py lines 688-697) with the working
directory made explicit: the result pairs the process working directory
after the call with the outcome. A missing file returns `{}` without
touching the working directory. Otherwise the code runs `os.chdir` to the
project directory, `exec`s the script, and only then restores the
original working directory — there is no `try`/`finally`, so when the
script raises, the exception propagates with the working directory still
at the project directory. -/
def parse_defaults_file (cwd0 : String) (file : Option DefaultsFile) :
    String × Except String (List String) :=
  match file with
  | none => (cwd0, .ok [])
  | some f =>
    match f.run with
    | .ok defaults => (cwd0, .ok defaults)
    | .error e => (f.projectDir, .error e)

/-- A concrete host environment for witnesses and counterexamples: user
name `user`, home `/home/user`, and the identity map as the
path-resolution oracle. -/
def host0 : HostEnv := { uname := "user", home := "/home/user", resolve := id }

/-- A concrete reconciliation input with ambiguous intent in a
non-interactive context: a running container with the requested image,
neither `--auto-attach` nor `--auto-replace` set, `interactive` false and
an empty stdin. -/
def rinAmbiguous : ReconcileIn :=
  { containerName := "dev", matched := some ("docker.io/img:latest", true),
    image := ["docker.io/img:latest"], user := none, autoAttach := none,
    autoReplace := none, interactive := false, venv := false, defaultShell := none,
    detach := false, sttyRows := "24", sttyCols := "80", sniffUser := none, answers := [] }

/-- A concrete reconciliation input with a running container under a
different image, auto-attach AND auto-replace both requested. -/
def rinBothFlags : ReconcileIn :=
  { containerName := "dev", matched := some ("docker.io/other:latest", true),
    image := ["docker.io/img:latest"], user := none, autoAttach := some true,
    autoReplace := some true, interactive := false, venv := false, defaultShell := none,
    detach := false, sttyRows := "24", sttyCols := "80", sniffUser := none, answers := [] }

/-- Like `rinBothFlags` but with only auto-attach requested. -/
def rinAttachOnly : ReconcileIn :=
  { containerName := "dev", matched := some ("docker.io/other:latest", true),
    image := ["docker.io/img:latest"], user := none, autoAttach := some true,
    autoReplace := none, interactive := false, venv := false, defaultShell := none,
    detach := false, sttyRows := "24", sttyCols := "80", sniffUser := none, answers := [] }

def loadCandTok (t : String) : Option String :=
  if pyStartswith t "--load=" then some (t.drop 7)
  else if pyStartswith t "-" && t != "-" then none
  else some t

def loadCands (ts : List String) : List String := ts.filterMap loadCandTok

def loadCandsAll (env : LoadEnv) (autoPath : String) (cli : List String) : List String :=
  "" :: autoPath :: (loadCands cli ++ env.flatMap (fun e => loadCands e.2))

-- Shared helper lemmas about the string primitives.

theorem isPrefixOf_cons_ne {a b : Char} (l t : List Char) (h : a ≠ b) :
    (a :: l).isPrefixOf (b :: t) = false := by
  rw [Bool.eq_false_iff]
  intro hp
  rw [ List.isPrefixOf_iff_prefix, List.cons_prefix_cons] at hp
  exact h hp.1

theorem pyStartswith_append (a b : String) : pyStartswith (a ++ b) a = true := by
  simp [pyStartswith, String.data_append, List.isPrefixOf_iff_prefix]

theorem pyStartswith_self (a : String) : pyStartswith a a = true := by
  simp [pyStartswith, List.isPrefixOf_iff_prefix]

theorem listReplaceFirst_append_left (old new rest : List Char) :
    listReplaceFirst old new (old ++ rest) = new ++ rest := by
  cases old with
  | nil =>
    cases rest with
    | nil => simp [listReplaceFirst, List.isPrefixOf]
    | cons c cs => simp [listReplaceFirst, List.isPrefixOf]
  | cons o os =>
    rw [List.cons_append, listReplaceFirst]
    rw [if_pos (by rw [ List.isPrefixOf_iff_prefix, List.cons_prefix_cons]
                   exact ⟨rfl, List.prefix_append os rest⟩)]
    congr 1
    rw [show (o :: os).length = os.length + 1 from rfl,
        List.drop_succ_cons, List.drop_left]

theorem pyReplaceFirst_append_left (old new rest : String) :
    pyReplaceFirst (old ++ rest) old new = new ++ rest := by
  apply String.ext
  rw [pyReplaceFirst, String.data_append, listReplaceFirst_append_left,
      String.data_append]

theorem expandTildeWith_tilde (repl rest : String) :
    expandTildeWith repl ("~" ++ rest) = repl ++ rest := by
  unfold expandTildeWith
  rw [String.data_append, show "~".data = ['~'] from rfl, List.singleton_append]
  rfl

theorem expandTildeWith_no_tilde (repl s : String) (c : Char) (cs : List Char)
    (hdata : s.data = c :: cs) (h : c ≠ '~') : expandTildeWith repl s = s := by
  unfold expandTildeWith
  split
  · next rest heq =>
    rw [hdata] at heq
    exact absurd (List.cons.inj heq).1 h
  · rfl

theorem data_slash_append (x : String) :
    ("/home/" ++ x).data = '/' :: ("home/".data ++ x.data) := by
  rw [String.data_append]
  rfl

/-- C1: the claim says that a user explicitly set via `--user` before
`--venv` survives, the venv user override being suppressed. In the code it
is the other way around: `_VenvAction` overwrites `user` unconditionally,
so applying `--user bob` and then `--venv` leaves `root`, not `bob`. -/
theorem c1_user_preserved_cex :
    (_VenvAction (_UserAction "bob" {})).user = some "root"
    ∧ (_VenvAction (_UserAction "bob" {})).user ≠ some "bob" := by
  decide

/-- C1 (amended): applying the sandbox action always sets the effective
user to the fixed privileged identity `root` and appends the sandbox
environment variables, overriding any user explicitly set beforehand; the
mutual exclusion runs the other way round: an explicit `--user` applied
after the sandbox action is suppressed (the user stays `root`), while
`--user` applied when the sandbox is not active sets the user. -/
theorem c1_sandbox_user_override (ns : RunNs) (v : String) (h : ns.venv = false) :
    (_VenvAction ns).user = some "root"
    ∧ (_VenvAction ns).env = ns.env ++ ["DOCKERW_VENV=1", "ENV=" ++ DOCKERW_VENV_RC_PATH]
    ∧ (_UserAction v (_VenvAction ns)).user = some "root"
    ∧ (_UserAction v ns).user = some v := by
  refine ⟨rfl, rfl, ?_, ?_⟩
  · simp [_UserAction, _VenvAction]
  · simp [_UserAction, h]

theorem c1_sandbox_user_override_witness :
    (_VenvAction {}).user = some "root"
    ∧ (_VenvAction {}).env = ([] : List String) ++ ["DOCKERW_VENV=1", "ENV=" ++ DOCKERW_VENV_RC_PATH]
    ∧ (_UserAction "bob" (_VenvAction {})).user = some "root"
    ∧ (_UserAction "bob" {}).user = some "bob" :=
  c1_sandbox_user_override {} "bob" rfl

/-- C3: the claim says a volume whose container-side destination falls
under `/tmp/dockerw` is rejected. The guard of lines 628-630 anchors
`re.match` at the start of the whole volume string, i.e. at the host-side
path: `/data:/tmp/dockerw/x` has its container-side destination under the
reserved namespace yet is not rejected. -/
theorem c3_reserved_path_guard_cex :
    reservedVolumeError ["/data:/tmp/dockerw/x"] = none
    ∧ (splitVolume "/data:/tmp/dockerw/x").2.1 = "/tmp/dockerw/x"
    ∧ pyStartswith (splitVolume "/data:/tmp/dockerw/x").2.1 "/tmp/dockerw/" = true := by
  decide

/-- C3 (amended): any volume string that itself begins with
`/tmp/dockerw` followed by a slash or a colon — i.e. whose first
(host-side) component lies under the reserved staging namespace — makes
the run terminate as a fatal configuration error before dispatch; a
container-side destination under `/tmp/dockerw` with a different
host-side source is not caught. -/
theorem c3_reserved_path_guard (volumes : List String) (v : String) (hv : v ∈ volumes)
    (h : (pyStartswith v "/tmp/dockerw/" || pyStartswith v "/tmp/dockerw:") = true) :
    (reservedVolumeError volumes).isSome = true := by
  unfold reservedVolumeError
  split
  · next heq =>
    exfalso
    have hm : v ∈ volumes.filter
        (fun v => pyStartswith v "/tmp/dockerw/" || pyStartswith v "/tmp/dockerw:") :=
      List.mem_filter.mpr ⟨hv, h⟩
    rw [heq] at hm
    exact List.not_mem_nil _ hm
  · rfl

theorem c3_reserved_path_guard_witness :
    (reservedVolumeError ["/tmp/dockerw:/tmp/dockerw"]).isSome = true :=
  c3_reserved_path_guard ["/tmp/dockerw:/tmp/dockerw"] "/tmp/dockerw:/tmp/dockerw"
    (by decide) (by decide)

/-- C8: the claim says the working directory is restored even when the
defaults script fails. `parse_defaults_file` has no `try`/`finally`
(lines 692-695): when the script raises, the restoring `os.chdir` is
skipped and the exception propagates with the working directory still at
the project root `/proj`, not the original `/orig`. -/
theorem c8_cwd_restored_cex :
    parse_defaults_file "/orig" (some { projectDir := "/proj", run := .error "boom" })
      = ("/proj", .error "boom")
    ∧ "/proj" ≠ "/orig" := by
  constructor
  · rfl
  · decide

/-- C8 (amended): during a defaults-file load the working directory is set
to the project root for the script execution and is restored afterwards
when the script succeeds (and untouched when there is no defaults file);
when the script raises, the exception propagates with the working
directory left at the project root. -/
theorem c8_cwd_restored (cwd0 : String) (f : DefaultsFile) :
    parse_defaults_file cwd0 none = (cwd0, .ok [])
    ∧ (∀ d, f.run = .ok d → parse_defaults_file cwd0 (some f) = (cwd0, .ok d))
    ∧ (∀ e, f.run = .error e → parse_defaults_file cwd0 (some f) = (f.projectDir, .error e)) := by
  refine ⟨rfl, ?_, ?_⟩
  · intro d hd
    simp [parse_defaults_file, hd]
  · intro e he
    simp [parse_defaults_file, he]

theorem c8_cwd_restored_witness :
    parse_defaults_file "/orig" (some { projectDir := "/proj", run := .ok ["--venv"] })
      = ("/orig", .ok ["--venv"]) :=
  (c8_cwd_restored "/orig" { projectDir := "/proj", run := .ok ["--venv"] }).2.1
    ["--venv"] rfl

/-- C4: image-name normalization. `name` parses to
`(docker.io, name, latest)`, `registry.example.com:5000/name:tag` parses
to `(registry.example.com:5000, name, tag)`, and every input on which the
image-reference pattern finds no name segment (`matchImage` fails) is a
fatal input error carrying the offending value instead of a triple. -/
theorem c4_image_name_normalization :
    _parse_image_name "name" = .ok ("docker.io", "name", "latest")
    ∧ _parse_image_name "registry.example.com:5000/name:tag"
        = .ok ("registry.example.com:5000", "name", "tag")
    ∧ ∀ s : String, matchImage s.data = none →
        _parse_image_name s
          = .error ("Error: Invalid image name provided: \"" ++ s ++ "\"") := by
  refine ⟨rfl, rfl, ?_⟩
  intro s h
  unfold _parse_image_name
  rw [h]

theorem c4_image_name_normalization_witness :
    _parse_image_name "_foo"
      = .error ("Error: Invalid image name provided: \"" ++ "_foo" ++ "\"") :=
  c4_image_name_normalization.2.2 "_foo" (by decide)

/-- C2: the claim says every Copy-semantics volume is rendered read-only
with its destination forced under the copy staging namespace. A `--copy`
volume whose destination already lies under `/.dockerw/copy` skips the
rewriting block of lines 162-167 entirely: an explicit `rw` option
survives and no `ro` is added. -/
theorem c2_copy_read_only_cex :
    updateVolumePath host0 "/src:/.dockerw/copy/x:rw" true = "/src:/.dockerw/copy/x:rw"
    ∧ (splitVolume (updateVolumePath host0 "/src:/.dockerw/copy/x:rw" true)).2.2 = "rw" := by
  constructor
  · rfl
  · rfl

/-- C2 (amended): every Copy-semantics volume whose (tilde-expanded)
container-side destination does not already lie under the reserved copy
staging namespace `/.dockerw/copy` has its destination forced under that
namespace and its rendered option list carries `ro` — with any `rw`
dropped whenever `ro` was not already among the requested options; a Copy
volume whose destination already lies under `/.dockerw/copy` is passed
through unchanged (and may stay read-write). -/
theorem c2_copy_read_only (host : HostEnv) (src dest opts : String)
    (h : pyStartswith (expandTildeWith ("/home/" ++ host.uname) dest)
          DOCKERW_VENV_COPY_PATH = false) :
    pyStartswith (updVolParts host src dest opts true).2.1 DOCKERW_VENV_COPY_PATH = true
    ∧ (updVolParts host src dest opts true).2.2
        = String.intercalate "," (copyOptions (optsSplit opts))
    ∧ "ro" ∈ copyOptions (optsSplit opts)
    ∧ ("ro" ∉ optsSplit opts → "rw" ∉ copyOptions (optsSplit opts)) := by
  have hbranch : updVolParts host src dest opts true
      = (host.resolve (expandTildeWith host.home src),
         joinPath DOCKERW_VENV_COPY_PATH
           (lstripSep (expandTildeWith ("/home/" ++ host.uname) dest)),
         String.intercalate "," (copyOptions (optsSplit opts))) := by
    unfold updVolParts
    rw [if_pos ⟨rfl, h⟩]
  refine ⟨?_, by rw [hbranch], ?_, ?_⟩
  · rw [hbranch]
    unfold joinPath
    split
    · exact pyStartswith_self _
    · rw [show DOCKERW_VENV_COPY_PATH ++ "/"
            ++ lstripSep (expandTildeWith ("/home/" ++ host.uname) dest)
          = DOCKERW_VENV_COPY_PATH
            ++ ("/" ++ lstripSep (expandTildeWith ("/home/" ++ host.uname) dest))
        from String.append_assoc ..]
      exact pyStartswith_append ..
  · unfold copyOptions
    split
    · next hmem => exact hmem
    · exact List.mem_append_right _ (List.mem_singleton.mpr rfl)
  · intro hro
    unfold copyOptions
    rw [if_neg hro]
    intro hmem
    rcases List.mem_append.mp hmem with hl | hr
    · exact (by simpa using (List.mem_filter.mp hl).2 : ("rw" : String) ≠ "rw") rfl
    · exact absurd (List.mem_singleton.mp hr) (by decide)

theorem c2_copy_read_only_witness :
    pyStartswith (updVolParts host0 "/data" "/etc/conf" "rw" true).2.1
      DOCKERW_VENV_COPY_PATH = true
    ∧ (updVolParts host0 "/data" "/etc/conf" "rw" true).2.2
        = String.intercalate "," (copyOptions (optsSplit "rw"))
    ∧ "ro" ∈ copyOptions (optsSplit "rw")
    ∧ ("ro" ∉ optsSplit "rw" → "rw" ∉ copyOptions (optsSplit "rw")) :=
  c2_copy_read_only host0 "/data" "/etc/conf" "rw" (by decide)

/-- C10: a non-Copy volume whose container-side destination begins with
`/home/<host-username>` — including a destination written with a leading
tilde — has that destination silently rewritten to the staging home path
`/.dockerw/home/<host-username>...`, and the rewrite is applied by the
rendering path for every namespace, independent of whether sandbox
(`--venv`) mode is enabled (`venv` is a wrapper-only flag that
`_parsed_args_to_list` skips; the volume rewriting runs unconditionally). -/
theorem c10_home_dest_rewrite (host : HostEnv) (src opts rest : String) :
    updVolParts host src ("/home/" ++ host.uname ++ rest) opts false
      = (host.resolve (expandTildeWith host.home src),
         DOCKERW_VENV_HOME_PATH host ++ rest, opts)
    ∧ updVolParts host src ("~" ++ rest) opts false
      = (host.resolve (expandTildeWith host.home src),
         DOCKERW_VENV_HOME_PATH host ++ rest, opts)
    ∧ ∀ (b : Bool) (ns : List (String × ArgValue)) (img : Option (List String)),
        _parsed_args_to_list host (("venv", ArgValue.bool b) :: ns) img
          = _parsed_args_to_list host (("venv", ArgValue.bool false) :: ns) img := by
  have hexp : expandTildeWith ("/home/" ++ host.uname) ("/home/" ++ host.uname ++ rest)
      = "/home/" ++ host.uname ++ rest :=
    expandTildeWith_no_tilde _ _ '/' _
      (by rw [show "/home/" ++ host.uname ++ rest = "/home/" ++ (host.uname ++ rest) from
                String.append_assoc ..]
          exact data_slash_append _)
      (by decide)
  have hpre : pyStartswith ("/home/" ++ host.uname ++ rest) ("/home/" ++ host.uname) = true := by
    rw [show "/home/" ++ host.uname ++ rest = ("/home/" ++ host.uname) ++ rest from rfl]
    exact pyStartswith_append ..
  have hrepl : pyReplaceFirst ("/home/" ++ host.uname ++ rest) ("/home/" ++ host.uname)
      (DOCKERW_VENV_HOME_PATH host) = DOCKERW_VENV_HOME_PATH host ++ rest := by
    rw [show "/home/" ++ host.uname ++ rest = ("/home/" ++ host.uname) ++ rest from rfl]
    exact pyReplaceFirst_append_left ..
  refine ⟨?_, ?_, ?_⟩
  · unfold updVolParts
    rw [if_neg (by intro hc; exact absurd hc.1 (by decide))]
    rw [hexp, if_pos hpre, hrepl]
  · unfold updVolParts
    rw [expandTildeWith_tilde]
    rw [if_neg (by intro hc; exact absurd hc.1 (by decide))]
    rw [show "/home/" ++ host.uname ++ rest = ("/home/" ++ host.uname) ++ rest from rfl,
        if_pos (pyStartswith_append ..), pyReplaceFirst_append_left]
  · intro b ns img
    unfold _parsed_args_to_list
    rw [List.filter_cons, List.filter_cons]
    simp [dockerwArgNames]

/-- C7: for every multi-valued flag, repeating the same value any number
of times across sources yields exactly one occurrence of the rendered
`--flag=value` token in the resolved invocation (for `volume`, of the
rewritten volume string): the rendering of a list-valued namespace entry
deduplicates via `list(set(...))`. -/
theorem c7_multi_flag_idempotent (host : HostEnv) (name : String) (vals : List String)
    (v : String) (hv : v ∈ vals) :
    (renderArg host name (ArgValue.strs vals)).count
      (fmtFlag name (if name = "volume" then updateVolumePath host v false else v)) = 1 := by
  have hne : ¬(vals = []) := by
    intro h
    rw [h] at hv
    exact List.not_mem_nil _ hv
  simp only [renderArg]
  rw [if_neg hne]
  have hmem : fmtFlag name (if name = "volume" then updateVolumePath host v false else v)
      ∈ ((if name = "volume" then _update_volume_paths host vals false else vals).map
          (fun x => fmtFlag name x)) := by
    by_cases hn : name = "volume"
    · rw [if_pos hn, if_pos hn]
      refine List.mem_map.mpr ⟨updateVolumePath host v false, ?_, rfl⟩
      exact List.mem_map.mpr ⟨v, hv, rfl⟩
    · rw [if_neg hn, if_neg hn]
      exact List.mem_map.mpr ⟨v, hv, rfl⟩
  exact List.count_eq_one_of_mem (List.nodup_dedup _) (List.mem_dedup.mpr hmem)

theorem c7_multi_flag_idempotent_witness :
    (renderArg host0 "env" (ArgValue.strs ["A=1", "A=1", "B=2"])).count
      (fmtFlag "env" (if "env" = "volume" then updateVolumePath host0 "A=1" false else "A=1"))
      = 1 :=
  c7_multi_flag_idempotent host0 "env" ["A=1", "A=1", "B=2"] "A=1" (by decide)

theorem promptLoop_valid (pstr dflt a : String) (b : Bool) (h : validAnswer a = some b)
    (answers : List String) (out : List (Chan × String)) :
    promptLoop pstr dflt a answers out = (b, out, answers) := by
  simp only [promptLoop, h]

theorem yes_no_prompt_noninteractive (msg : String) (ansDefault : Bool)
    (answers : List String) :
    _yes_no_prompt msg ansDefault false answers
      = (ansDefault,
         [(Chan.stdout, promptStr msg ansDefault ++ defaultAnswer ansDefault)], answers) := by
  have hva : validAnswer (defaultAnswer ansDefault) = some ansDefault := by
    cases ansDefault <;> rfl
  unfold _yes_no_prompt
  rw [if_neg (by simp)]
  rw [promptLoop_valid _ _ _ _ hva]

/-- C9: the claim says the non-interactive default answers are echoed to
the error stream. With ambiguous intent in a non-interactive context the
defaults ("do not attach", "do not replace") are taken and echoed — but by
plain `print`, to standard output; nothing is written to stderr. -/
theorem c9_ambiguous_prompt_default_cex :
    reconcile host0 rinAmbiguous
      = .ok { cmd := "run", attach := false, replace := false,
              image := ["docker.io/img:latest"], user := none,
              detach := false, envAdd := [],
              output := [(Chan.stdout, "Attach to already running instance? [N/y]: no"),
                         (Chan.stdout, "Replace already running instance? [N/y]: no")] }
    ∧ ([(Chan.stdout, "Attach to already running instance? [N/y]: no"),
        (Chan.stdout, "Replace already running instance? [N/y]: no")].filter
         (fun m => m.1 == Chan.stderr)) = [] := by
  decide

/-- C9 (amended): for every reconciliation with ambiguous intent (neither
flag set) over a matching running container in a non-interactive context,
the decision is still resolved via the prompt mechanism taking the
documented default answers — "do not attach" then "do not replace" — and
the prompt line with its default answer is echoed to STANDARD OUTPUT for
auditability; this case is never an error. -/
theorem c9_ambiguous_prompt_default (host : HostEnv) (i : ReconcileIn) (raw : String)
    (hm : i.matched = some (raw, true))
    (hfmt : formatImageName raw = .ok (i.image.headD ""))
    (haa : i.autoAttach = none) (har : i.autoReplace = none)
    (hint : i.interactive = false) :
    reconcile host i
      = .ok { cmd := "run", attach := false, replace := false,
              image := i.image, user := i.user, detach := i.detach, envAdd := [],
              output := [(Chan.stdout, "Attach to already running instance? [N/y]: no"),
                         (Chan.stdout, "Replace already running instance? [N/y]: no")] } := by
  simp only [reconcile, hm, hfmt, haa, har, hint, bne_self_eq_false, Bool.not_true,
    Bool.or_self, Bool.false_and, Bool.and_false, if_false, and_self, if_true,
    yes_no_prompt_noninteractive]
  simp [promptStr, defaultAnswer]

theorem c9_ambiguous_prompt_default_witness :
    reconcile host0 rinAmbiguous
      = .ok { cmd := "run", attach := false, replace := false,
              image := rinAmbiguous.image, user := rinAmbiguous.user,
              detach := rinAmbiguous.detach, envAdd := [],
              output := [(Chan.stdout, "Attach to already running instance? [N/y]: no"),
                         (Chan.stdout, "Replace already running instance? [N/y]: no")] } :=
  c9_ambiguous_prompt_default host0 rinAmbiguous "docker.io/img:latest"
    rfl (by decide) rfl rfl rfl

/-- C5: the claim says a requested auto-attach over a mismatched or
non-running container is disabled WITH A WARNING. When `--auto-replace`
is also requested, lines 596-603 skip the warning block entirely: the
attach is disabled and the decision becomes replace-then-run, but nothing
at all is printed. -/
theorem c5_auto_attach_disabled_cex :
    rinBothFlags.autoAttach = some true
    ∧ reconcile host0 rinBothFlags
        = .ok { cmd := "run", attach := false, replace := true,
                image := ["docker.io/img:latest"], user := none,
                detach := false, envAdd := [], output := [] } := by
  decide

/-- C5 (amended): whenever a container matching the target name exists but
its normalized image differs from the requested image or it is not in the
active-like state, a requested auto-attach is disabled and the decision is
not `Attach` (the invocation keeps the `run` subcommand instead of being
rewritten into an exec-style invocation); the disable warning is printed
to stderr unless auto-replace was also requested, in which case the
auto-attach is disabled silently. -/
theorem c5_auto_attach_disabled (host : HostEnv) (i : ReconcileIn) (raw cur : String)
    (running : Bool)
    (hm : i.matched = some (raw, running))
    (hcur : formatImageName raw = .ok cur)
    (hmis : ((cur != i.image.headD "") || !running) = true)
    (haa : i.autoAttach = some true) :
    ∃ r, reconcile host i = .ok r ∧ r.cmd = "run" ∧ r.attach = false
      ∧ (i.autoReplace ≠ some true →
          (Chan.stderr, "Warning: Disabled auto-attach") ∈ r.output) := by
  cases har : i.autoReplace with
  | none =>
    simp only [reconcile, hm, hcur, hmis, haa, har, truthy, Bool.not_false, Bool.true_and,
      Bool.and_true, if_true, if_false, reduceCtorEq, and_false, false_and, and_true, if_neg,
      Bool.and_self]
    refine ⟨_, rfl, rfl, rfl, ?_⟩
    exact fun _ => List.mem_append_left _
      (List.mem_append_right _ (List.mem_singleton.mpr rfl))
  | some b =>
    cases b with
    | true =>
      simp only [reconcile, hm, hcur, hmis, haa, har, truthy, Bool.not_true, Bool.and_false,
        if_false, reduceCtorEq, and_false, false_and]
      exact ⟨_, rfl, rfl, rfl, fun hc => absurd rfl hc⟩
    | false =>
      simp only [reconcile, hm, hcur, hmis, haa, har, truthy, Bool.not_false, Bool.and_true,
        Bool.true_and, if_true, reduceCtorEq, and_false, false_and]
      refine ⟨_, rfl, rfl, rfl, ?_⟩
      exact fun _ => List.mem_append_right _ (List.mem_singleton.mpr rfl)

theorem c5_auto_attach_disabled_witness :
    ∃ r, reconcile host0 rinAttachOnly = .ok r ∧ r.cmd = "run" ∧ r.attach = false
      ∧ (rinAttachOnly.autoReplace ≠ some true →
          (Chan.stderr, "Warning: Disabled auto-attach") ∈ r.output) :=
  c5_auto_attach_disabled host0 rinAttachOnly "docker.io/other:latest"
    "docker.io/other:latest" true rfl (by decide) (by decide) rfl

theorem pyStartswith_trans (s p q : String) (hq : q.data <+: p.data)
    (h : pyStartswith s p = true) : pyStartswith s q = true := by
  rw [pyStartswith, List.isPrefixOf_iff_prefix] at h ⊢
  exact hq.trans h

theorem loadCandTok_value (v : String) (h : (pyStartswith v "-" && v != "-") = false) :
    loadCandTok v = some v := by
  unfold loadCandTok
  rcases Bool.and_eq_false_iff.mp h with h1 | h1
  · rw [if_neg (fun hc =>
        absurd (pyStartswith_trans v "--load=" "-" (by decide) hc) (by simp [h1])),
      if_neg (by simp [h])]
  · have hv : v = "-" := bne_eq_false_iff_eq.mp h1
    rw [hv]
    decide

theorem loadCandTok_load7 (t : String) (h : pyStartswith t "--load=" = true) :
    loadCandTok t = some (t.drop 7) := by
  unfold loadCandTok
  rw [if_pos h]

theorem marker_not_load_assign (p : String) :
    pyStartswith ("--_dockerw_parse_cwd_=" ++ p) "--load=" = false := by
  rw [Bool.eq_false_iff]
  intro h
  rw [pyStartswith, String.data_append, List.isPrefixOf_iff_prefix] at h
  have ht := List.prefix_iff_eq_take.mp h
  rw [List.take_append_of_le_length (by decide)] at ht
  exact absurd ht (by decide)

theorem marker_starts_dash (p : String) :
    (pyStartswith ("--_dockerw_parse_cwd_=" ++ p) "-"
      && ("--_dockerw_parse_cwd_=" ++ p) != "-") = true := by
  have h1 : pyStartswith ("--_dockerw_parse_cwd_=" ++ p) "-" = true := by
    rw [pyStartswith, String.data_append,
        show "--_dockerw_parse_cwd_=".data = '-' :: "-_dockerw_parse_cwd_=".data from rfl,
        List.cons_append]
    simp [ List.isPrefixOf_iff_prefix, List.cons_prefix_cons]
  have h2 : (("--_dockerw_parse_cwd_=" ++ p) != "-") = true := by
    rw [bne_iff_ne]
    intro hc
    have hd := congrArg String.data hc
    rw [String.data_append] at hd
    have hl := congrArg List.length hd
    rw [List.length_append,
        show ("--_dockerw_parse_cwd_=".data).length = 22 from by decide,
        show ("-".data).length = 1 from by decide] at hl
    omega
  rw [h1, h2]
  rfl

theorem loadCandTok_marker (p : String) :
    loadCandTok ("--_dockerw_parse_cwd_=" ++ p) = none := by
  unfold loadCandTok
  rw [if_neg (by simp [marker_not_load_assign]), if_pos (marker_starts_dash p)]

theorem loadCands_append (a b : List String) :
    loadCands (a ++ b) = loadCands a ++ loadCands b := by
  unfold loadCands
  exact List.filterMap_append ..

theorem loadCands_cons_subset (t : String) (ts : List String) :
    loadCands ts ⊆ loadCands (t :: ts) := by
  unfold loadCands
  rw [List.filterMap_cons]
  cases loadCandTok t
  · exact fun x hx => hx
  · exact fun x hx => List.mem_cons_of_mem _ hx

theorem parseLoadArgs_load_cons (v : String) (r : List String) (load : String) (dis : Bool) :
    parseLoadArgs ("--load" :: v :: r) load dis
      = if pyStartswith v "-" && v != "-" then .error () else parseLoadArgs r v dis := rfl

theorem parseLoadArgs_load_nil (load : String) (dis : Bool) :
    parseLoadArgs ["--load"] load dis = .error () := rfl

theorem parseLoadArgs_cons_ne (t : String) (rest : List String) (load : String) (dis : Bool)
    (ht : ¬ t = "--load") :
    parseLoadArgs (t :: rest) load dis
      = if pyStartswith t "--load=" then parseLoadArgs rest (t.drop 7) dis
        else if t = "--disable-auto-load" then parseLoadArgs rest load true
        else parseLoadArgs rest load dis := by
  conv =>
    lhs
    rw [parseLoadArgs.eq_def]
  simp only [if_neg ht]

theorem parseLoadArgs_ok_mem_aux (n : Nat) :
    ∀ (ts : List String), ts.length ≤ n → ∀ (init : String) (d : Bool) (l : String) (d2 : Bool),
      parseLoadArgs ts init d = .ok (l, d2) → l = init ∨ l ∈ loadCands ts := by
  induction n with
  | zero =>
    intro ts hlen init d l d2 h
    rw [List.length_eq_zero.mp (Nat.le_zero.mp hlen)] at h
    simp only [parseLoadArgs] at h
    exact Or.inl (Prod.mk.inj (Except.ok.inj h)).1.symm
  | succ n ih =>
    intro ts hlen init d l d2 h
    cases ts with
    | nil =>
      simp only [parseLoadArgs] at h
      exact Or.inl (Prod.mk.inj (Except.ok.inj h)).1.symm
    | cons t rest =>
      by_cases ht : t = "--load"
      · subst ht
        cases rest with
        | nil =>
          rw [parseLoadArgs_load_nil] at h
          exact Except.noConfusion h
        | cons v r =>
          rw [parseLoadArgs_load_cons] at h
          by_cases hv : (pyStartswith v "-" && v != "-") = true
          · rw [if_pos hv] at h
            exact Except.noConfusion h
          · have hv2 : (pyStartswith v "-" && v != "-") = false := by
              rwa [Bool.not_eq_true] at hv
            rw [if_neg hv] at h
            have hr : r.length ≤ n := by
              simp only [List.length_cons] at hlen
              omega
            rcases ih r hr v d l d2 h with h1 | h1
            · refine Or.inr ?_
              unfold loadCands
              rw [List.filterMap_cons, show loadCandTok "--load" = none from by decide,
                  List.filterMap_cons, loadCandTok_value v hv2, h1]
              exact List.mem_cons_self ..
            · exact Or.inr (loadCands_cons_subset _ _ (loadCands_cons_subset _ _ h1))
      · have hrest : rest.length ≤ n := by
          simp only [List.length_cons] at hlen
          omega
        rw [parseLoadArgs_cons_ne t rest init d ht] at h
        by_cases hpre : pyStartswith t "--load=" = true
        · rw [if_pos hpre] at h
          rcases ih rest hrest (t.drop 7) d l d2 h with h1 | h1
          · refine Or.inr ?_
            unfold loadCands
            rw [List.filterMap_cons, loadCandTok_load7 t hpre, h1]
            exact List.mem_cons_self ..
          · exact Or.inr (loadCands_cons_subset _ _ h1)
        · rw [if_neg hpre] at h
          by_cases hd : t = "--disable-auto-load"
          · rw [if_pos hd] at h
            rcases ih rest hrest init true l d2 h with h1 | h1
            · exact Or.inl h1
            · exact Or.inr (loadCands_cons_subset _ _ h1)
          · rw [if_neg hd] at h
            rcases ih rest hrest init d l d2 h with h1 | h1
            · exact Or.inl h1
            · exact Or.inr (loadCands_cons_subset _ _ h1)

theorem parseLoadArgs_ok_mem (ts : List String) (init : String) (d : Bool)
    (l : String) (d2 : Bool) (h : parseLoadArgs ts init d = .ok (l, d2)) :
    l = init ∨ l ∈ loadCands ts :=
  parseLoadArgs_ok_mem_aux ts.length ts (Nat.le_refl _) init d l d2 h

theorem loadCands_dockerw_load (env : LoadEnv) (p cwd : String) :
    loadCands (_dockerw_load env p cwd) = loadCands (lookupLoadEnv env p) := by
  unfold _dockerw_load loadCands
  rw [List.filterMap_cons, loadCandTok_marker p, List.filterMap_append]
  rw [show List.filterMap loadCandTok ["--_dockerw_parse_cwd_=" ++ cwd] = [] from by
        rw [List.filterMap_cons, loadCandTok_marker cwd, List.filterMap_nil]]
  rw [List.append_nil]

theorem lookupLoadEnv_cands_subset (env : LoadEnv) (p : String) :
    loadCands (lookupLoadEnv env p) ⊆ env.flatMap (fun e => loadCands e.2) := by
  unfold lookupLoadEnv
  cases hf : env.find? (fun e => e.1 == p) with
  | none =>
    intro x hx
    simp [loadCands] at hx
  | some e =>
    intro x hx
    exact List.mem_flatMap.mpr ⟨e, List.mem_of_find?_eq_some hf, hx⟩

theorem effective_load_mem (env : LoadEnv) (autoPath : String) (cli acc : List String)
    (parsed : String × Bool)
    (h : parseLoadArgs (acc ++ cli) "" false = .ok parsed)
    (hacc : loadCands acc ⊆ env.flatMap (fun e => loadCands e.2)) :
    effectiveLoad autoPath parsed ∈ loadCandsAll env autoPath cli := by
  unfold effectiveLoad
  split
  · exact List.mem_cons_of_mem _ (List.mem_cons_self ..)
  · have h2 : parseLoadArgs (acc ++ cli) "" false = .ok (parsed.1, parsed.2) := h
    rcases parseLoadArgs_ok_mem _ _ _ _ _ h2 with h1 | h1
    · rw [h1]
      exact List.mem_cons_self ..
    · rw [loadCands_append] at h1
      rcases List.mem_append.mp h1 with hm | hm
      · exact List.mem_cons_of_mem _ (List.mem_cons_of_mem _
          (List.mem_append_right _ (hacc hm)))
      · exact List.mem_cons_of_mem _ (List.mem_cons_of_mem _
          (List.mem_append_left _ hm))

theorem loadLoop_succ (env : LoadEnv) (a : String) (cli : List String) (cwd : String)
    (n : Nat) (acc loaded : List String) :
    loadLoop env a cli cwd (n + 1) acc loaded
      = match parseLoadArgs (acc ++ cli) "" false with
        | .error e => some (.error e)
        | .ok parsed =>
          let load := effectiveLoad a parsed
          if load ∈ loaded then some (.ok acc)
          else loadLoop env a cli cwd n (acc ++ _dockerw_load env load cwd)
                 (loaded ++ [load]) := rfl

theorem loadLoop_isSome_aux (env : LoadEnv) (autoPath : String) (cli : List String)
    (cwd : String) :
    ∀ (fuel : Nat) (acc loaded : List String),
      loadCands acc ⊆ env.flatMap (fun e => loadCands e.2) →
      ((loadCandsAll env autoPath cli).toFinset \ loaded.toFinset).card < fuel →
      (loadLoop env autoPath cli cwd fuel acc loaded).isSome = true := by
  intro fuel
  induction fuel with
  | zero =>
    intro acc loaded _ hcard
    exact absurd hcard (Nat.not_lt_zero _)
  | succ n ih =>
    intro acc loaded hacc hcard
    rw [loadLoop_succ]
    cases hp : parseLoadArgs (acc ++ cli) "" false with
    | error e => rfl
    | ok parsed =>
      by_cases hl : effectiveLoad autoPath parsed ∈ loaded
      · simp [hl]
      · simp only [if_neg hl]
        have hmem : effectiveLoad autoPath parsed ∈ loadCandsAll env autoPath cli :=
          effective_load_mem env autoPath cli acc parsed hp hacc
        have hacc2 : loadCands (acc ++ _dockerw_load env (effectiveLoad autoPath parsed) cwd)
            ⊆ env.flatMap (fun e => loadCands e.2) := by
          rw [loadCands_append, loadCands_dockerw_load]
          intro x hx
          rcases List.mem_append.mp hx with h2 | h2
          · exact hacc h2
          · exact lookupLoadEnv_cands_subset env _ h2
        have hsub : (loadCandsAll env autoPath cli).toFinset
              \ (loaded ++ [effectiveLoad autoPath parsed]).toFinset
            ⊂ (loadCandsAll env autoPath cli).toFinset \ loaded.toFinset := by
          rw [List.toFinset_append]
          rw [(Finset.ssubset_iff_of_subset
            (Finset.sdiff_subset_sdiff (le_refl _) Finset.subset_union_left))]
          refine ⟨effectiveLoad autoPath parsed, Finset.mem_sdiff.mpr
            ⟨List.mem_toFinset.mpr hmem, fun hc => hl (List.mem_toFinset.mp hc)⟩, ?_⟩
          intro hc
          exact (Finset.mem_sdiff.mp hc).2
            (Finset.mem_union_right _ (by simp))
        have hcard2 := Finset.card_lt_card hsub
        exact ih _ _ hacc2 (by omega)

/-- C6: defaults loading terminates for every input. The loop tracks the
set of already-loaded root paths (`loaded_paths`); every load target it
can ever compute lies in the finite candidate set drawn from the
command line, the auto-discovered root and the defaults environment, so
enough fuel always makes the loop halt (first conjunct: fuel equal to the
number of outstanding candidates plus one suffices); and whenever the
parsed load target is already among the loaded paths, the loop stops at
once and returns the accumulated defaults (second conjunct: treated as
converged rather than reloading). -/
theorem c6_defaults_load_terminates (env : LoadEnv) (autoPath cwd : String)
    (cliArgs : List String) :
    (∃ n, (loadLoop env autoPath cliArgs cwd n [] [""]).isSome = true)
    ∧ (∀ (fuel : Nat) (acc loaded : List String) (parsed : String × Bool),
        parseLoadArgs (acc ++ cliArgs) "" false = .ok parsed →
        effectiveLoad autoPath parsed ∈ loaded →
        loadLoop env autoPath cliArgs cwd (fuel + 1) acc loaded = some (.ok acc)) := by
  constructor
  · refine ⟨((loadCandsAll env autoPath cliArgs).toFinset \ [""].toFinset).card + 1, ?_⟩
    apply loadLoop_isSome_aux
    · intro x hx
      simp [loadCands] at hx
    · omega
  · intro fuel acc loaded parsed hp hl
    rw [loadLoop_succ, hp]
    simp [hl]

theorem c6_defaults_load_terminates_witness :
    loadLoop [] "" ["--load=p"] "/cwd" 1 [] ["", "p"] = some (.ok []) :=
  (c6_defaults_load_terminates [] "" "/cwd" ["--load=p"]).2 0 [] ["", "p"] ("p", false)
    (by decide) (by decide)

-- Sanity checks (concrete evaluations of the embedding).
example : pySplit "a:b:c:d" ':' = ["a", "b", "c", "d"] := by decide
example : splitVolume "a:b:c:d" = ("a", "b", "c") := by decide
example : splitVolume "a" = ("a", "", "") := by decide
example : _parse_image_name "name" = .ok ("docker.io", "name", "latest") := rfl
example : _parse_image_name "registry.example.com:5000/name:tag"
    = .ok ("registry.example.com:5000", "name", "tag") := rfl
example : _parse_image_name "localhost/img" = .ok ("localhost", "img", "latest") := rfl
example : _parse_image_name "a.b/B" = .ok ("docker.io", "a.b/B", "latest") := rfl
example : (_parse_image_name "").isOk = false := by decide
example : (_parse_image_name "/").isOk = false := by decide
example : (_parse_image_name "_foo").isOk = false := by decide
example : formatImageName "ubuntu:22.04" = .ok ("docker.io/ubuntu:22.04") := rfl

-- Sanity checks for the prompt and basename.
example : _yes_no_prompt "Attach to already running instance?" false false []
    = (false, [(Chan.stdout, "Attach to already running instance? [N/y]: no")], []) := by decide
example : _yes_no_prompt "Q" true true ["maybe", "YES"]
    = (true, [(Chan.stdout, "Q [Y/n]: "), (Chan.stdout, "Please answer yes or no..."),
              (Chan.stdout, "Q [Y/n]: ")], []) := by decide
example : basename "/usr/bin/bash" = "bash" := by decide
example : basename "sh" = "sh" := by decide

-- Sanity checks for the loader.
example : parseLoadArgs ["--load", "p", "x", "--load=q"] "" false = .ok ("q", false) := by decide
example : parseLoadArgs ["--load", "--other"] "" false = .error () := by decide
example : loadLoop [] "" ["--load", "p"] "/cwd" 3 [] [""]
    = some (.ok ["--_dockerw_parse_cwd_=p", "--_dockerw_parse_cwd_=/cwd"]) := by decide
